import Mathlib

/-!
Verification of the query text editor of `jupyterlab_bigquery`
(`src/components/query_editor/query_text_editor/query_text_editor.tsx`).

JavaScript strings are embedded as `List Char`; the fallible string
operations of the source (indexing past the end of an array yields
`undefined`, and calling a method on `undefined` throws a `TypeError`)
are embedded with `Option` and `Except`.  Numbers that may be `NaN` or
`undefined` are embedded as `Option Int` (`none` = `NaN`/`undefined`,
which JavaScript arithmetic propagates identically here).
-/

namespace QTE

/-- Characters of a string literal. -/
def toL (s : String) : List Char := s.data

/-- JavaScript `String.prototype.trim`: drop leading and trailing whitespace. -/
def jsTrim (s : List Char) : List Char :=
  (((s.dropWhile Char.isWhitespace).reverse.dropWhile Char.isWhitespace).reverse)

/-- JavaScript `s.split(c)` for a one-character separator. -/
def splitOnChar (c : Char) (s : List Char) : List (List Char) :=
  s.splitOn c

/-- JavaScript `hay.indexOf(needle)`: first index at which `needle` occurs, else `-1`. -/
def indexOfL (needle hay : List Char) : Int :=
  match (List.range (hay.length + 1)).find? (fun i => needle.isPrefixOf (hay.drop i)) with
  | some i => (i : Int)
  | none => -1

/-- JavaScript `hay.lastIndexOf(needle)`: last index at which `needle` occurs, else `-1`. -/
def lastIndexOfL (needle hay : List Char) : Int :=
  match ((List.range (hay.length + 1)).filter
      (fun i => needle.isPrefixOf (hay.drop i))).getLast? with
  | some i => (i : Int)
  | none => -1

/-- Clamp a `substring` argument to `[0, length]` (`NaN` is handled by the
caller); JavaScript's `ToInteger` on a negative value then clamping. -/
def clampIdx (s : List Char) (a : Int) : Nat :=
  min (max a 0).toNat s.length

/-- JavaScript `s.substring(a, b)`: clamp both arguments to `[0, length]`,
swap them if needed, and return the slice. -/
def jsSubstring (s : List Char) (a b : Int) : List Char :=
  (s.take (max (clampIdx s a) (clampIdx s b))).drop (min (clampIdx s a) (clampIdx s b))

/-- JavaScript `s.substring(a)` where `a` may be `NaN`/`undefined` (treated as `0`). -/
def jsSubstring1 (s : List Char) (a : Option Int) : List Char :=
  jsSubstring s (match a with | some k => k | none => 0) (s.length : Int)

/-- JavaScript addition where either side may be `NaN`/`undefined`. -/
def jsAdd : Option Int → Option Int → Option Int
  | some a, some b => some (a + b)
  | _, _ => none

/-- Digits-prefix value used by `parseIntJS`. -/
def digitsVal (s : List Char) : Option Nat :=
  let ds := s.takeWhile Char.isDigit
  if ds = [] then none
  else some (ds.foldl (fun a c => a * 10 + (c.toNat - 48)) 0)

/-- JavaScript `parseInt(s, 10)`: skip leading whitespace, optional sign,
value of the longest digit prefix; `NaN` (here `none`) when there is none. -/
def parseIntJS (s : List Char) : Option Int :=
  match s.dropWhile Char.isWhitespace with
  | '-' :: rest => (digitsVal rest).map (fun n => -(n : Int))
  | '+' :: rest => (digitsVal rest).map (fun n => (n : Int))
  | other => (digitsVal other).map (fun n => (n : Int))

/-- A JavaScript exception escaping one of the error handlers. -/
inductive JSException
  | typeError
deriving DecidableEq, Repr

deriving instance DecidableEq for Except

/-- Monaco marker severity (only `Error` is used by the source). -/
inductive Severity
  | error
deriving DecidableEq, Repr

/-- A Monaco model marker as built by the source; the numeric fields are
`Option Int` because the syntax-error path can put `NaN` into them. -/
structure Marker where
  startLineNumber : Option Int
  endLineNumber : Option Int
  startColumn : Option Int
  endColumn : Option Int
  message : List Char
  severity : Severity
deriving DecidableEq, Repr

/-- The literal `'Not found:'` of `handleNotFound`. -/
def promptNF : List Char := toL "Not found:"

/-- The literal `'Syntax error:'` of `handleSyntaxError`. -/
def promptSE : List Char := toL "Syntax error:"

/-- The scan loop of `handleNotFound`: `line`/`pos` start at `(-1, -1)` and are
overwritten by every line in which `errStr` occurs (`indexOf !== -1`). -/
def nfScanAux (errStr : List Char) : List (List Char) → Nat → Int × Int → Int × Int
  | [], _, acc => acc
  | t :: rest, i, acc =>
    let indx := indexOfL errStr t
    nfScanAux errStr rest (i + 1) (if indx ≠ -1 then ((i : Int) + 1, indx) else acc)

/-- `handleNotFound`'s whole-buffer scan. -/
def nfScan (errStr : List Char) (texts : List (List Char)) : Int × Int :=
  nfScanAux errStr texts 0 (-1, -1)

/-- `handleNotFound` of the source, on the raw error text and the editor
buffer (`model.getValue()`); `Except.error` marks a thrown `TypeError`
(`response.split(' ')[3]` being `undefined` when fewer than 4 tokens exist). -/
def handleNotFound (response buffer : List Char) :
    Except JSException (Option Marker) :=
  let r := jsTrim response
  if promptNF.isPrefixOf r then
    match (splitOnChar ' ' r).get? 3 with
    | none => Except.error JSException.typeError
    | some tok =>
      let errStr := (splitOnChar ':' tok).getLastD []
      let p := nfScan errStr (splitOnChar '\n' buffer)
      Except.ok (some
        { startLineNumber := some p.1
          endLineNumber := some p.1
          startColumn := some p.2
          endColumn := some (p.2 + (errStr.length : Int))
          message := r
          severity := Severity.error })
  else Except.ok none

/-- `texts[line - 1]` of the source: `undefined` (`none`) when `line` is `NaN`,
below `1`, or past the end of the buffer. -/
def jsIndexLine (texts : List (List Char)) (line : Option Int) :
    Option (List Char) :=
  match line with
  | none => none
  | some k => if 1 ≤ k then texts.get? (k - 1).toNat else none

/-- `handleSyntaxError` of the source; `Except.error` marks the `TypeError`
thrown by `text.substring` when `texts[line - 1]` is `undefined`. -/
def handleSyntaxError (response buffer : List Char) :
    Except JSException (Option Marker) :=
  let r := jsTrim response
  if promptSE.isPrefixOf r then
    let body := jsSubstring r (promptSE.length : Int) (lastIndexOfL (toL "at") r)
    let posStr := jsSubstring r (lastIndexOfL ['['] r + 1) (lastIndexOfL [']'] r)
    let nums := (splitOnChar ':' posStr).map parseIntJS
    let line : Option Int := (nums.get? 0).join
    let pos : Option Int := (nums.get? 1).join
    match jsIndexLine (splitOnChar '\n' buffer) line with
    | none => Except.error JSException.typeError
    | some text =>
      let errLen := indexOfL [' '] (jsSubstring1 text pos)
      let endPos : Option Int :=
        if errLen = -1 then some ((text.length : Int) + 1)
        else jsAdd (jsAdd (some errLen) pos) (some 1)
      Except.ok (some
        { startLineNumber := line
          endLineNumber := line
          startColumn := pos
          endColumn := endPos
          message := body
          severity := Severity.error })
  else Except.ok none

/-- Effect of one handler on the editor's marker set: `setModelMarkers` with a
singleton list when a marker was produced, otherwise the set is untouched. -/
def applyMarkers (current : List Marker) (res : Except JSException (Option Marker)) :
    List Marker :=
  match res with
  | Except.ok (some m) => [m]
  | _ => current

/-- Decidable "occurs as a contiguous substring" test. -/
def isSubOf (sub s : List Char) : Bool :=
  (List.range (s.length + 1)).any (fun i => sub.isPrefixOf (s.drop i))

/-! ### Definitions written from the specification's words, for comparison
with the source functions above. -/

/-- Modelled from the spec: the whitespace-separated tokens of a text
("the 4th whitespace-separated token"). -/
def wsTokens (s : List Char) : List (List Char) :=
  (s.splitOnP Char.isWhitespace).filter (fun t => !t.isEmpty)

/-- The substring after the last colon of a token (the whole token when it
has no colon), as computed by `split(':').pop()`. -/
def afterLastColon (tok : List Char) : List Char :=
  (splitOnChar ':' tok).getLastD []

/-- Modelled from the spec: the offending identifier of a `Not found:`
message, read from the 4th whitespace-separated token. -/
def claimNotFoundIdent (s : List Char) : Option (List Char) :=
  ((wsTokens s).get? 3).map afterLastColon

/-- Modelled from the spec: the last line (0-based) containing the
identifier, paired with the identifier's first offset in that line
("when the identifier occurs on multiple lines the last matching line wins"). -/
def lastHit (errStr : List Char) : List (List Char) → Option (Nat × Nat)
  | [] => none
  | t :: rest =>
    match lastHit errStr rest with
    | some (j, idx) => some (j + 1, idx)
    | none =>
      if indexOfL errStr t ≠ -1 then some (0, (indexOfL errStr t).toNat)
      else none

/-- Modelled from the spec: "the index of the first space character at or
after `column`, or the line length plus 1 when no such space exists". -/
def claimEndColumn (col : Nat) (line : List Char) : Nat :=
  match (List.range line.length).find?
      (fun i => decide (col ≤ i) && decide (line.get? i = some ' ')) with
  | some i => i
  | none => line.length + 1

/-! ### The job-lifecycle controller and the debounced validator.

State reached through `handleButtonClick` / `handleQuery` / `handleCancel`,
the `onUpdate` closure of `handleQuery`, the key-up closure of
`handleEditorDidMount`, and `checkSQL`.  Timers are identified by fresh ids;
a scheduled timer is live until it is cleared or fires. -/

/-- The source's `ButtonStates` enumeration. -/
inductive ButtonStates
  | READY
  | PENDING
  | ERROR
deriving DecidableEq, Repr

/-- One request issued through `pagedQueryService.request`: the query text,
the `dryRunOnly` flag, and the poll interval when one was passed. -/
structure ReqRecord where
  query : List Char
  dryRunOnly : Bool
  pollMs : Option Nat
deriving DecidableEq, Repr

/-- The decoded result pushed to the external store by a `Pending` update. -/
structure StoreEntry where
  content : List Char
  labels : List Char
  bytesProcessed : Int
deriving DecidableEq, Repr

/-- The editor component's state: React state, instance fields, the armed
timers, the marker set, this editor's slot of the external result store, and
the log of issued requests. -/
structure EdState where
  buttonState : ButtonStates
  bytesProcessed : Option Int
  errorMsg : Option (List Char)
  text : List Char
  job : Option Nat
  nextJob : Nat
  finished : List Nat
  cancelled : List Nat
  resetTimers : List (Nat × Nat)
  timeoutAlarm : Option Nat
  liveTimers : List (Nat × Nat)
  nextTimer : Nat
  markers : List Marker
  store : Option StoreEntry
  requests : List ReqRecord
deriving DecidableEq, Repr

/-- The component's constructor state (plus a starting buffer text). -/
def initState (txt : List Char) : EdState :=
  { buttonState := ButtonStates.READY
    bytesProcessed := none
    errorMsg := none
    text := txt
    job := none
    nextJob := 0
    finished := []
    cancelled := []
    resetTimers := []
    timeoutAlarm := none
    liveTimers := []
    nextTimer := 0
    markers := []
    store := none
    requests := [] }

/-- `handleQuery` of the source: clear this editor's result-store entry,
go `PENDING`, clear `bytesProcessed`/`errorMsg`, issue one request with
`dryRunOnly: false` and a 2000 ms poll interval, and hold the new job. -/
def handleQuery (s : EdState) : EdState :=
  { s with
    store := none
    buttonState := ButtonStates.PENDING
    bytesProcessed := none
    errorMsg := none
    requests := s.requests ++ [{ query := s.text, dryRunOnly := false, pollMs := some 2000 }]
    job := some s.nextJob
    nextJob := s.nextJob + 1 }

/-- Modelled from the spec: `PagedJob.cancel` (the `pagedAPI` module is not
under `src/`) stops polling and suppresses further `onUpdate` calls, is a
no-op on a job that already finished, and cancellation of a live job is
treated as immediately transitioning the button back to `Ready`. -/
def jobCancel (j : Nat) (s : EdState) : EdState :=
  if j ∈ s.finished then s
  else { s with cancelled := j :: s.cancelled, buttonState := ButtonStates.READY }

/-- `handleCancel` of the source: `if (!!this.job) this.job.cancel()`. -/
def handleCancel (s : EdState) : EdState :=
  match s.job with
  | none => s
  | some j => jobCancel j s

/-- `handleButtonClick` of the source: submit from `READY`/`ERROR`,
cancel from `PENDING`. -/
def handleButtonClick (s : EdState) : EdState :=
  match s.buttonState with
  | ButtonStates.READY => handleQuery s
  | ButtonStates.ERROR => handleQuery s
  | ButtonStates.PENDING => handleCancel s

/-- A `JobState` update delivered by the polling client for a submitted job,
with its decoded payload. -/
inductive JobUpd
  | pending (content labels : List Char) (bytes : Int)
  | fail (msg : List Char)
  | done
deriving DecidableEq, Repr

/-- The `onUpdate` closure of `handleQuery`.  The guard is modelled from the
spec: the polling client delivers no updates for a cancelled or completed
job.  On `Fail` a one-shot 2000 ms auto-reset timer is armed. -/
def onQueryUpdate (j : Nat) (u : JobUpd) (s : EdState) : EdState :=
  if j ∈ s.cancelled ∨ j ∈ s.finished then s
  else
    match u with
    | JobUpd.pending c l b =>
      { s with
        bytesProcessed := some b
        store := some { content := c, labels := l, bytesProcessed := b } }
    | JobUpd.fail msg =>
      { s with
        buttonState := ButtonStates.ERROR
        errorMsg := some msg
        resetTimers := s.resetTimers ++ [(s.nextTimer, 2000)]
        nextTimer := s.nextTimer + 1 }
    | JobUpd.done =>
      { s with buttonState := ButtonStates.READY, finished := j :: s.finished }

/-- The auto-reset `setTimeout` callback of the `Fail` branch: switch the
button back to `READY` (unconditionally — the latent race of §9). -/
def onResetFire (t : Nat) (s : EdState) : EdState :=
  if s.resetTimers.any (fun p => p.1 == t) then
    { s with
      buttonState := ButtonStates.READY
      resetTimers := s.resetTimers.filter (fun p => p.1 != t) }
  else s

/-- `checkSQL` of the source: do nothing on an empty buffer, otherwise issue
one dry-run request (no poll interval passed). -/
def checkSQL (s : EdState) : EdState :=
  if s.text = [] then s
  else
    { s with
      requests := s.requests ++ [{ query := s.text, dryRunOnly := true, pollMs := none }] }

/-- The key-up closure installed by `handleEditorDidMount`: after an edit,
clear the held timer (and the error message) when one was ever scheduled,
schedule `checkSQL` after 1500 ms, and reset the marker set. -/
def onKeyUp (txt : List Char) (s : EdState) : EdState :=
  let s0 := { s with text := txt }
  let s1 :=
    match s0.timeoutAlarm with
    | some h =>
      { s0 with liveTimers := s0.liveTimers.filter (fun p => p.1 != h), errorMsg := none }
    | none => s0
  { s1 with
    timeoutAlarm := some s1.nextTimer
    liveTimers := s1.liveTimers ++ [(s1.nextTimer, 1500)]
    nextTimer := s1.nextTimer + 1
    markers := [] }

/-- A debounce timer firing: only a timer that is still live runs `checkSQL`
(a cleared one was `clearTimeout`-ed and never fires). -/
def onDebounceFire (t : Nat) (s : EdState) : EdState :=
  if s.liveTimers.any (fun p => p.1 == t) then
    checkSQL { s with liveTimers := s.liveTimers.filter (fun p => p.1 != t) }
  else s

/-- The events of one editor instance's cooperative timeline. -/
inductive Ev
  | click
  | update (j : Nat) (u : JobUpd)
  | resetFire (t : Nat)
  | keyUp (txt : List Char)
  | debounceFire (t : Nat)
deriving DecidableEq, Repr

/-- One step of the timeline. -/
def step (s : EdState) (e : Ev) : EdState :=
  match e with
  | Ev.click => handleButtonClick s
  | Ev.update j u => onQueryUpdate j u s
  | Ev.resetFire t => onResetFire t s
  | Ev.keyUp txt => onKeyUp txt s
  | Ev.debounceFire t => onDebounceFire t s

/-- Run a sequence of events. -/
def run (s : EdState) (evs : List Ev) : EdState :=
  evs.foldl step s

/-! ### Lemmas about the diagnostic parser. -/

theorem indexOfL_toNat (e t : List Char) (h : indexOfL e t ≠ -1) :
    indexOfL e t = (((indexOfL e t).toNat : Nat) : Int) := by
  unfold indexOfL at *
  cases hf : (List.range (t.length + 1)).find? (fun i => e.isPrefixOf (t.drop i)) with
  | some i => simp [hf]
  | none => rw [hf] at h; exact absurd rfl h

theorem nfScanAux_eq (e : List Char) :
    ∀ (ts : List (List Char)) (i : Nat) (acc : Int × Int),
      nfScanAux e ts i acc =
        match lastHit e ts with
        | some (j, idx) => (((i + j : Nat) : Int) + 1, (idx : Int))
        | none => acc := by
  intro ts
  induction ts with
  | nil => intro i acc; rfl
  | cons t rest ih =>
    intro i acc
    simp only [nfScanAux]
    rw [ih]
    cases hl : lastHit e rest with
    | some p =>
      obtain ⟨j, idx⟩ := p
      simp only [lastHit, hl]
      have hn : i + 1 + j = i + (j + 1) := by omega
      rw [hn]
    | none =>
      simp only [lastHit, hl]
      by_cases hidx : indexOfL e t = -1
      · simp [hidx]
      · simp only [hidx, ne_eq, not_false_eq_true, if_true, if_pos]
        rw [← indexOfL_toNat e t hidx]
        simp

theorem nfScan_eq (e : List Char) (ts : List (List Char)) :
    nfScan e ts =
      match lastHit e ts with
      | some (j, idx) => ((j : Int) + 1, (idx : Int))
      | none => (-1, -1) := by
  unfold nfScan
  rw [nfScanAux_eq]
  cases hl : lastHit e ts with
  | some p => obtain ⟨j, idx⟩ := p; simp
  | none => rfl

theorem lastHit_none (e : List Char) (ts : List (List Char))
    (h : ∀ t ∈ ts, indexOfL e t = -1) : lastHit e ts = none := by
  induction ts with
  | nil => rfl
  | cons t rest ih =>
    simp only [lastHit]
    rw [ih (fun x hx => h x (List.mem_cons_of_mem _ hx))]
    simp [h t (List.mem_cons_self _ _)]

theorem handleNotFound_eval (resp buf tok : List Char)
    (h1 : promptNF.isPrefixOf (jsTrim resp) = true)
    (h2 : (splitOnChar ' ' (jsTrim resp)).get? 3 = some tok) :
    handleNotFound resp buf = Except.ok (some
      { startLineNumber := some (nfScan (afterLastColon tok) (splitOnChar '\n' buf)).1
        endLineNumber := some (nfScan (afterLastColon tok) (splitOnChar '\n' buf)).1
        startColumn := some (nfScan (afterLastColon tok) (splitOnChar '\n' buf)).2
        endColumn := some ((nfScan (afterLastColon tok) (splitOnChar '\n' buf)).2 +
          ((afterLastColon tok).length : Int))
        message := jsTrim resp
        severity := Severity.error }) := by
  simp only [handleNotFound]
  rw [if_pos h1, h2]
  unfold afterLastColon
  rfl

theorem take_drop_decomp (s : List Char) (lo hi : Nat) (h : lo ≤ hi) :
    s = s.take lo ++ ((s.take hi).drop lo) ++ s.drop hi := by
  have h1 : (s.take hi).take lo = s.take lo := by
    rw [List.take_take, min_eq_left h]
  calc s = s.take hi ++ s.drop hi := (List.take_append_drop hi s).symm
    _ = ((s.take hi).take lo ++ (s.take hi).drop lo) ++ s.drop hi := by
        rw [List.take_append_drop lo (s.take hi)]
    _ = s.take lo ++ ((s.take hi).drop lo) ++ s.drop hi := by
        rw [h1]

theorem jsSubstring_decomp (s : List Char) (a b : Int) :
    ∃ pre post, s = pre ++ jsSubstring s a b ++ post := by
  refine ⟨s.take (min (clampIdx s a) (clampIdx s b)),
    s.drop (max (clampIdx s a) (clampIdx s b)), ?_⟩
  exact take_drop_decomp s _ _ min_le_max

theorem jsTrim_decomp (s : List Char) : ∃ pre post, s = pre ++ jsTrim s ++ post := by
  refine ⟨s.takeWhile Char.isWhitespace,
    ((s.dropWhile Char.isWhitespace).reverse.takeWhile Char.isWhitespace).reverse, ?_⟩
  have hmain :
      s.dropWhile Char.isWhitespace =
        jsTrim s ++
          ((s.dropWhile Char.isWhitespace).reverse.takeWhile Char.isWhitespace).reverse := by
    unfold jsTrim
    calc s.dropWhile Char.isWhitespace
        = ((s.dropWhile Char.isWhitespace).reverse).reverse := (List.reverse_reverse _).symm
      _ = (((s.dropWhile Char.isWhitespace).reverse.takeWhile Char.isWhitespace) ++
            ((s.dropWhile Char.isWhitespace).reverse.dropWhile Char.isWhitespace)).reverse := by
          rw [List.takeWhile_append_dropWhile]
      _ = ((s.dropWhile Char.isWhitespace).reverse.dropWhile Char.isWhitespace).reverse ++
            ((s.dropWhile Char.isWhitespace).reverse.takeWhile Char.isWhitespace).reverse := by
          rw [List.reverse_append]
  calc s = s.takeWhile Char.isWhitespace ++ s.dropWhile Char.isWhitespace := by
        rw [List.takeWhile_append_dropWhile]
    _ = s.takeWhile Char.isWhitespace ++ (jsTrim s ++
          ((s.dropWhile Char.isWhitespace).reverse.takeWhile Char.isWhitespace).reverse) := by
        rw [← hmain]
    _ = s.takeWhile Char.isWhitespace ++ jsTrim s ++
          ((s.dropWhile Char.isWhitespace).reverse.takeWhile Char.isWhitespace).reverse := by
        rw [List.append_assoc]

theorem isPrefixOf_append_self (l t : List Char) : l.isPrefixOf (l ++ t) = true := by
  induction l with
  | nil => simp [List.isPrefixOf]
  | cons a l ih => simp [List.isPrefixOf, ih]

theorem isSubOf_of_append (m pre post l : List Char) (h : l = pre ++ m ++ post) :
    isSubOf m l = true := by
  unfold isSubOf
  rw [List.any_eq_true]
  refine ⟨pre.length, ?_, ?_⟩
  · rw [List.mem_range]
    subst h
    simp only [List.length_append]
    omega
  · subst h
    rw [List.append_assoc, List.drop_left]
    exact isPrefixOf_append_self m post

theorem append_chain (x p1 q1 p2 q2 m w : List Char)
    (hT : x = p1 ++ w ++ q1) (hS : w = p2 ++ m ++ q2) :
    x = (p1 ++ p2) ++ m ++ (q2 ++ q1) := by
  subst hS
  subst hT
  simp [List.append_assoc]

/-! ### The claims about the diagnostic parser. -/

/-- Claim C1: the diagnostic parser is NOT total.  Both handlers are `async`
and throw a `TypeError` on the malformed inputs the claim lists: a
`Not found:` message with fewer than four space-separated tokens
(`split(' ')[3]` is `undefined`), a `Syntax error:` message without an
`at [ROW:COL]` locator (`parseInt` gives `NaN`, so `texts[NaN]` is
`undefined`), and a locator naming a line outside the buffer.  This theorem
evaluates the code at those failing inputs. -/
theorem parser_throws_on_malformed_input :
    handleNotFound (toL "Not found: x") (toL "SELECT 1") =
      Except.error JSException.typeError
    ∧ handleSyntaxError (toL "Syntax error: something bad") (toL "SELECT 1") =
      Except.error JSException.typeError
    ∧ handleSyntaxError (toL "Syntax error: x at [99:1]") (toL "SELECT 1") =
      Except.error JSException.typeError := by
  refine ⟨by decide, by decide, by decide⟩

/-- Claim C3, counterexample: on `"Syntax error: bad token at [3:5]"` over
`"a\nbb\nccc ddd"` the emitted message is `" bad token "` — the substring
between the prefix and the last `"at"` keeps its leading space — so it is
not the claimed `"bad token "`. -/
theorem syntaxError_example_message_refuted :
    handleSyntaxError (toL "Syntax error: bad token at [3:5]") (toL "a\nbb\nccc ddd") =
      Except.ok (some
        { startLineNumber := some 3
          endLineNumber := some 3
          startColumn := some 5
          endColumn := some 8
          message := toL " bad token "
          severity := Severity.error })
    ∧ toL " bad token " ≠ toL "bad token " := by
  refine ⟨by decide, by decide⟩

/-- Claim C3, amended: the example yields exactly one diagnostic with
`line = 3`, `startColumn = 5`, message `" bad token "` (the leading space
after the `"Syntax error:"` prefix is retained), and `endColumn = 8`, which
agrees with the spec's end-column rule (no space at or after column 5 in
line 3, so line length + 1). -/
theorem syntaxError_example_evaluates :
    handleSyntaxError (toL "Syntax error: bad token at [3:5]") (toL "a\nbb\nccc ddd") =
      Except.ok (some
        { startLineNumber := some 3
          endLineNumber := some 3
          startColumn := some 5
          endColumn := some 8
          message := toL " bad token "
          severity := Severity.error })
    ∧ claimEndColumn 5 (toL "ccc ddd") = 8 := by
  refine ⟨by decide, by decide⟩

/-- Claim C4, counterexample: the source tokenizes with `split(' ')` (single
space characters), not by whitespace.  On `"Not found:  Table c:Y"` (two
spaces) over the line `"Y Table"`, the whitespace-reading of the claim
extracts identifier `"Y"` sitting at offset 0, but the code's 4th
`split(' ')` token is `"Table"` and the emitted `startColumn` is 2. -/
theorem notFound_whitespace_token_refuted :
    handleNotFound (toL "Not found:  Table c:Y") (toL "Y Table") =
      Except.ok (some
        { startLineNumber := some 1
          endLineNumber := some 1
          startColumn := some 2
          endColumn := some 7
          message := toL "Not found:  Table c:Y"
          severity := Severity.error })
    ∧ claimNotFoundIdent (toL "Not found:  Table c:Y") = some (toL "Y")
    ∧ (some (indexOfL (toL "Y") (toL "Y Table")) : Option Int) ≠ some 2 := by
  refine ⟨by decide, by decide, by decide⟩

/-- Claim C4, amended: for every error text whose trimmed form starts with
`"Not found:"` and has a 4th token under `split(' ')` (single-space split,
not general whitespace), the identifier is the substring after the last
colon of that token; every buffer line is scanned and the last line
containing the identifier wins, the diagnostic carrying the identifier's
first offset in that line as `startColumn` and `startColumn + length` as
`endColumn`. -/
theorem notFound_last_matching_line_wins (resp buf tok : List Char) (j idx : Nat)
    (h1 : promptNF.isPrefixOf (jsTrim resp) = true)
    (h2 : (splitOnChar ' ' (jsTrim resp)).get? 3 = some tok)
    (h3 : lastHit (afterLastColon tok) (splitOnChar '\n' buf) = some (j, idx)) :
    handleNotFound resp buf = Except.ok (some
      { startLineNumber := some ((j : Int) + 1)
        endLineNumber := some ((j : Int) + 1)
        startColumn := some (idx : Int)
        endColumn := some ((idx : Int) + ((afterLastColon tok).length : Int))
        message := jsTrim resp
        severity := Severity.error }) := by
  rw [handleNotFound_eval resp buf tok h1 h2, nfScan_eq, h3]

/-- Witness for the amended claim C4 at a concrete input: identifier `tbl`
occurs in line 2 at offset 3 of the buffer `"x\nqq tbl"`. -/
theorem notFound_last_matching_line_wins_witness :
    handleNotFound (toL "Not found: Table p:tbl") (toL "x\nqq tbl") =
      Except.ok (some
        { startLineNumber := some ((1 : Int) + 1)
          endLineNumber := some ((1 : Int) + 1)
          startColumn := some (3 : Int)
          endColumn := some ((3 : Int) + ((afterLastColon (toL "p:tbl")).length : Int))
          message := jsTrim (toL "Not found: Table p:tbl")
          severity := Severity.error }) :=
  notFound_last_matching_line_wins (toL "Not found: Table p:tbl") (toL "x\nqq tbl")
    (toL "p:tbl") 1 3 (by decide) (by decide) (by decide)

/-- Claim C8, counterexample: the handlers test the prefix on the TRIMMED
text.  `" Not found: Table a:b"` starts with a space — with neither literal
prefix — yet over the buffer `"b"` it produces a diagnostic and replaces the
marker set. -/
theorem unrecognized_prefix_refuted :
    (promptNF.isPrefixOf (toL " Not found: Table a:b")) = false
    ∧ (promptSE.isPrefixOf (toL " Not found: Table a:b")) = false
    ∧ handleNotFound (toL " Not found: Table a:b") (toL "b") =
        Except.ok (some
          { startLineNumber := some 1
            endLineNumber := some 1
            startColumn := some 0
            endColumn := some 1
            message := toL "Not found: Table a:b"
            severity := Severity.error })
    ∧ applyMarkers [] (handleNotFound (toL " Not found: Table a:b") (toL "b")) ≠ [] := by
  refine ⟨by decide, by decide, by decide, by decide⟩

/-- Claim C8, amended: for every error text whose TRIMMED form starts with
neither `"Not found:"` nor `"Syntax error:"`, both handlers produce no
diagnostic and the editor's marker set is left unchanged. -/
theorem unrecognized_prefix_yields_none (resp buf : List Char) (ms : List Marker)
    (h1 : promptNF.isPrefixOf (jsTrim resp) = false)
    (h2 : promptSE.isPrefixOf (jsTrim resp) = false) :
    handleNotFound resp buf = Except.ok none
    ∧ handleSyntaxError resp buf = Except.ok none
    ∧ applyMarkers ms (handleNotFound resp buf) = ms
    ∧ applyMarkers ms (handleSyntaxError resp buf) = ms := by
  have e1 : handleNotFound resp buf = Except.ok none := by
    simp only [handleNotFound]
    rw [if_neg (by simp [h1])]
  have e2 : handleSyntaxError resp buf = Except.ok none := by
    simp only [handleSyntaxError]
    rw [if_neg (by simp [h2])]
  refine ⟨e1, e2, ?_, ?_⟩
  · rw [e1]; rfl
  · rw [e2]; rfl

/-- Witness for the amended claim C8 at a concrete input. -/
theorem unrecognized_prefix_yields_none_witness :
    handleNotFound (toL "hello") (toL "a") = Except.ok none
    ∧ handleSyntaxError (toL "hello") (toL "a") = Except.ok none
    ∧ applyMarkers [] (handleNotFound (toL "hello") (toL "a")) = []
    ∧ applyMarkers [] (handleSyntaxError (toL "hello") (toL "a")) = [] :=
  unrecognized_prefix_yields_none (toL "hello") (toL "a") [] (by decide) (by decide)

/-- Claim C9: a `Not found:` text whose extracted identifier occurs in no
buffer line still yields a diagnostic, at `line = -1`, `startColumn = -1`,
`endColumn = -1 +` the identifier's length. -/
theorem notFound_missing_identifier_marker (resp buf tok : List Char)
    (h1 : promptNF.isPrefixOf (jsTrim resp) = true)
    (h2 : (splitOnChar ' ' (jsTrim resp)).get? 3 = some tok)
    (h3 : ∀ t ∈ splitOnChar '\n' buf, indexOfL (afterLastColon tok) t = -1) :
    handleNotFound resp buf = Except.ok (some
      { startLineNumber := some (-1)
        endLineNumber := some (-1)
        startColumn := some (-1)
        endColumn := some ((-1) + ((afterLastColon tok).length : Int))
        message := jsTrim resp
        severity := Severity.error }) := by
  rw [handleNotFound_eval resp buf tok h1 h2, nfScan_eq, lastHit_none _ _ h3]

/-- Witness for claim C9 at a concrete input: `zz` occurs nowhere in `"ab"`. -/
theorem notFound_missing_identifier_marker_witness :
    handleNotFound (toL "Not found: Table a:zz") (toL "ab") =
      Except.ok (some
        { startLineNumber := some (-1)
          endLineNumber := some (-1)
          startColumn := some (-1)
          endColumn := some ((-1) + ((afterLastColon (toL "a:zz")).length : Int))
          message := jsTrim (toL "Not found: Table a:zz")
          severity := Severity.error }) :=
  notFound_missing_identifier_marker (toL "Not found: Table a:zz") (toL "ab")
    (toL "a:zz") (by decide) (by decide) (by decide)

/-- Claim C10: every successfully parsed `Not found:` diagnostic carries the
entire trimmed raw error text as its message, with severity `Error`; a
successfully parsed `Syntax error:` diagnostic's message, in contrast, is a
(contiguous) substring of the raw text. -/
theorem notFound_message_is_whole_trimmed_text
    (resp1 buf1 resp2 buf2 : List Char) (m1 m2 : Marker)
    (h1 : handleNotFound resp1 buf1 = Except.ok (some m1))
    (h2 : handleSyntaxError resp2 buf2 = Except.ok (some m2)) :
    (m1.message = jsTrim resp1 ∧ m1.severity = Severity.error)
    ∧ isSubOf m2.message resp2 = true := by
  constructor
  · simp only [handleNotFound] at h1
    split at h1
    · split at h1
      · exact absurd h1 (by simp)
      · simp only [Except.ok.injEq, Option.some.injEq] at h1
        subst h1
        exact ⟨rfl, rfl⟩
    · exact absurd h1 (by simp)
  · simp only [handleSyntaxError] at h2
    split at h2
    · split at h2
      · exact absurd h2 (by simp)
      · simp only [Except.ok.injEq, Option.some.injEq] at h2
        subst h2
        obtain ⟨p1, q1, hT⟩ := jsTrim_decomp resp2
        obtain ⟨p2, q2, hS⟩ := jsSubstring_decomp (jsTrim resp2)
          ((promptSE.length : Int)) (lastIndexOfL (toL "at") (jsTrim resp2))
        exact isSubOf_of_append _ (p1 ++ p2) (q2 ++ q1) _
          (append_chain resp2 p1 q1 p2 q2 _ _ hT hS)
    · exact absurd h2 (by simp)

/-- Witness for claim C10 at concrete inputs: a parsed `Not found:` message
and a parsed `Syntax error:` message. -/
theorem notFound_message_is_whole_trimmed_text_witness :
    ((Marker.mk (some 1) (some 1) (some 0) (some 1)
        (toL "Not found: Table a:b") Severity.error).message =
          jsTrim (toL " Not found: Table a:b")
      ∧ (Marker.mk (some 1) (some 1) (some 0) (some 1)
        (toL "Not found: Table a:b") Severity.error).severity = Severity.error)
    ∧ isSubOf (Marker.mk (some 1) (some 1) (some 1) (some 3)
        (toL " x ") Severity.error).message (toL "Syntax error: x at [1:1]") = true :=
  notFound_message_is_whole_trimmed_text
    (toL " Not found: Table a:b") (toL "b")
    (toL "Syntax error: x at [1:1]") (toL "yz")
    (Marker.mk (some 1) (some 1) (some 0) (some 1)
      (toL "Not found: Table a:b") Severity.error)
    (Marker.mk (some 1) (some 1) (some 1) (some 3)
      (toL " x ") Severity.error)
    (by decide) (by decide)

/-! ### Lemmas about the controller. -/

theorem handleButtonClick_ready (s : EdState) (h : s.buttonState = ButtonStates.READY) :
    handleButtonClick s = handleQuery s := by
  simp only [handleButtonClick, h]

theorem handleButtonClick_error (s : EdState) (h : s.buttonState = ButtonStates.ERROR) :
    handleButtonClick s = handleQuery s := by
  simp only [handleButtonClick, h]

theorem handleButtonClick_pending (s : EdState) (h : s.buttonState = ButtonStates.PENDING) :
    handleButtonClick s = handleCancel s := by
  simp only [handleButtonClick, h]

theorem handleCancel_requests (s : EdState) : (handleCancel s).requests = s.requests := by
  cases hj : s.job with
  | none => simp [handleCancel, hj]
  | some j =>
    simp only [handleCancel, hj, jobCancel]
    by_cases hfin : j ∈ s.finished
    · rw [if_pos hfin]
    · rw [if_neg hfin]

theorem any_filter_ne (M : List (Nat × Nat)) (a : Nat) :
    ((M.filter (fun p => p.1 != a)).any (fun p => p.1 == a)) = false := by
  cases hb : ((M.filter (fun p => p.1 != a)).any (fun p => p.1 == a)) with
  | false => rfl
  | true =>
    exfalso
    rw [List.any_eq_true] at hb
    obtain ⟨p, hmem, hp⟩ := hb
    have h2 := (List.mem_filter.mp hmem).2
    simp only [beq_iff_eq] at hp
    simp only [bne_iff_ne, ne_eq] at h2
    exact h2 hp

/-! ### The claims about the controller. -/

/-- Claim C2: a `Fail` update followed, before its 2000 ms auto-reset timer
fires, by a fresh submit is not clobbered: the button state after
`[submit, fail, submit-again, done]`, observed before any timer fires, is
`READY` — the same state reached after `[submit, done]`. -/
theorem fail_resubmit_done_is_ready (s : EdState) (msg : List Char)
    (hb : s.buttonState = ButtonStates.READY)
    (hc : ∀ k ∈ s.cancelled, k < s.nextJob)
    (hf : ∀ k ∈ s.finished, k < s.nextJob) :
    (run s [Ev.click, Ev.update s.nextJob (JobUpd.fail msg), Ev.click,
      Ev.update (s.nextJob + 1) JobUpd.done]).buttonState = ButtonStates.READY
    ∧ (run s [Ev.click, Ev.update s.nextJob JobUpd.done]).buttonState =
      ButtonStates.READY := by
  have hn1 : s.nextJob ∉ s.cancelled := fun h => absurd (hc _ h) (lt_irrefl _)
  have hn2 : s.nextJob ∉ s.finished := fun h => absurd (hf _ h) (lt_irrefl _)
  have hn3 : s.nextJob + 1 ∉ s.cancelled := fun h => by have := hc _ h; omega
  have hn4 : s.nextJob + 1 ∉ s.finished := fun h => by have := hf _ h; omega
  constructor <;>
    simp [run, step, handleButtonClick, handleQuery, onQueryUpdate, hb,
      hn1, hn2, hn3, hn4]

/-- Witness for claim C2 from the freshly constructed editor. -/
theorem fail_resubmit_done_is_ready_witness :
    (run (initState (toL "q")) [Ev.click, Ev.update 0 (JobUpd.fail (toL "boom")),
      Ev.click, Ev.update 1 JobUpd.done]).buttonState = ButtonStates.READY
    ∧ (run (initState (toL "q")) [Ev.click, Ev.update 0 JobUpd.done]).buttonState =
      ButtonStates.READY :=
  fail_resubmit_done_is_ready (initState (toL "q")) (toL "boom") rfl
    (by simp [initState]) (by simp [initState])

/-- Claim C5: cancel during `PENDING` with a live held job immediately
yields `READY`; cancel with no job handle is a no-op; cancelling an
already-completed job is a no-op that leaves the state (hence the button)
unchanged. -/
theorem cancel_transitions (s : EdState) (j : Nat) :
    (s.buttonState = ButtonStates.PENDING → s.job = some j → j ∉ s.finished →
      (handleCancel s).buttonState = ButtonStates.READY)
    ∧ (s.job = none → handleCancel s = s)
    ∧ (s.job = some j → j ∈ s.finished → handleCancel s = s) := by
  refine ⟨?_, ?_, ?_⟩
  · intro _ hj hfin
    simp only [handleCancel, hj, jobCancel]
    rw [if_neg hfin]
  · intro hj
    simp only [handleCancel, hj]
  · intro hj hfin
    simp only [handleCancel, hj, jobCancel]
    rw [if_pos hfin]

/-- Witness for claim C5: a pending editor with a live job, the fresh
editor without a handle, and an editor holding an already-finished job. -/
theorem cancel_transitions_witness :
    (handleCancel { initState (toL "q") with
      buttonState := ButtonStates.PENDING, job := some 0 }).buttonState =
        ButtonStates.READY
    ∧ handleCancel (initState (toL "q")) = initState (toL "q")
    ∧ handleCancel { initState (toL "q") with job := some 0, finished := [0] } =
        { initState (toL "q") with job := some 0, finished := [0] } :=
  ⟨(cancel_transitions { initState (toL "q") with
      buttonState := ButtonStates.PENDING, job := some 0 } 0).1 rfl rfl (by decide),
   (cancel_transitions (initState (toL "q")) 0).2.1 rfl,
   (cancel_transitions { initState (toL "q") with job := some 0, finished := [0] } 0).2.2
     rfl (by decide)⟩

/-- Claim C6: a click in `READY` or `ERROR` runs `handleQuery`: the button
goes `PENDING`, this editor's result-store entry, `bytesProcessed` and
`errorMsg` are cleared, and exactly one request with `dryRunOnly: false` and
a 2000 ms poll interval is issued; a click while `PENDING` runs
`handleCancel` instead, which issues no request. -/
theorem click_submits_or_cancels (s : EdState) :
    ((s.buttonState = ButtonStates.READY ∨ s.buttonState = ButtonStates.ERROR) →
      handleButtonClick s = handleQuery s
      ∧ (handleQuery s).buttonState = ButtonStates.PENDING
      ∧ (handleQuery s).store = none
      ∧ (handleQuery s).bytesProcessed = none
      ∧ (handleQuery s).errorMsg = none
      ∧ (handleQuery s).requests =
          s.requests ++ [{ query := s.text, dryRunOnly := false, pollMs := some 2000 }])
    ∧ (s.buttonState = ButtonStates.PENDING →
      handleButtonClick s = handleCancel s
      ∧ (handleCancel s).requests = s.requests) := by
  constructor
  · intro h
    rcases h with h | h
    · exact ⟨handleButtonClick_ready s h, rfl, rfl, rfl, rfl, rfl⟩
    · exact ⟨handleButtonClick_error s h, rfl, rfl, rfl, rfl, rfl⟩
  · intro h
    exact ⟨handleButtonClick_pending s h, handleCancel_requests s⟩

/-- Witness for claim C6: the fresh editor (ready) and a pending editor. -/
theorem click_submits_or_cancels_witness :
    (handleButtonClick (initState (toL "q")) = handleQuery (initState (toL "q"))
      ∧ (handleQuery (initState (toL "q"))).buttonState = ButtonStates.PENDING
      ∧ (handleQuery (initState (toL "q"))).store = none
      ∧ (handleQuery (initState (toL "q"))).bytesProcessed = none
      ∧ (handleQuery (initState (toL "q"))).errorMsg = none
      ∧ (handleQuery (initState (toL "q"))).requests =
          (initState (toL "q")).requests ++
            [{ query := (initState (toL "q")).text, dryRunOnly := false,
               pollMs := some 2000 }])
    ∧ (handleButtonClick { initState (toL "q") with buttonState := ButtonStates.PENDING } =
        handleCancel { initState (toL "q") with buttonState := ButtonStates.PENDING }
      ∧ (handleCancel { initState (toL "q") with
          buttonState := ButtonStates.PENDING }).requests =
        { initState (toL "q") with buttonState := ButtonStates.PENDING }.requests) :=
  ⟨(click_submits_or_cancels (initState (toL "q"))).1 (Or.inl rfl),
   (click_submits_or_cancels
     { initState (toL "q") with buttonState := ButtonStates.PENDING }).2 rfl⟩

/-- Claim C7: after two edits in quick succession (the second before the
first 1500 ms debounce timer fires), the first timer is cleared and firing
it does nothing, the second timer is armed with the 1500 ms delay, and its
firing issues exactly one dry-run request carrying the text of the final
edit; a timer firing over an empty buffer issues no request at all. -/
theorem debounce_coalesces_edits (s : EdState) (t1 t2 : List Char) (h2 : t2 ≠ []) :
    (onDebounceFire s.nextTimer (onKeyUp t2 (onKeyUp t1 s)) = onKeyUp t2 (onKeyUp t1 s))
    ∧ ((s.nextTimer + 1, 1500) ∈ (onKeyUp t2 (onKeyUp t1 s)).liveTimers)
    ∧ ((onDebounceFire (s.nextTimer + 1) (onKeyUp t2 (onKeyUp t1 s))).requests =
        s.requests ++ [{ query := t2, dryRunOnly := true, pollMs := none }])
    ∧ (∀ (u : EdState) (t : Nat), u.text = [] →
        (onDebounceFire t u).requests = u.requests) := by
  refine ⟨?_, ?_, ?_, ?_⟩
  · cases halarm : s.timeoutAlarm with
    | none =>
      simp only [onKeyUp, halarm, onDebounceFire]
      rw [if_neg ?_]
      simp only [List.filter_append, List.any_append]
      rw [any_filter_ne]
      simp
    | some h =>
      simp only [onKeyUp, halarm, onDebounceFire]
      rw [if_neg ?_]
      simp only [List.filter_append, List.any_append]
      rw [any_filter_ne]
      simp
  · cases halarm : s.timeoutAlarm with
    | none => simp [onKeyUp, halarm]
    | some h => simp [onKeyUp, halarm]
  · cases halarm : s.timeoutAlarm with
    | none =>
      simp only [onKeyUp, halarm, onDebounceFire]
      rw [if_pos ?_, checkSQL]
      · rw [if_neg h2]
      · simp
    | some h =>
      simp only [onKeyUp, halarm, onDebounceFire]
      rw [if_pos ?_, checkSQL]
      · rw [if_neg h2]
      · simp
  · intro u t hu
    unfold onDebounceFire
    cases hb : u.liveTimers.any (fun p => p.1 == t) with
    | false => simp
    | true => simp [checkSQL, hu]

/-- Witness for claim C7 from the freshly constructed editor. -/
theorem debounce_coalesces_edits_witness :
    (onDebounceFire 0 (onKeyUp (toL "ab") (onKeyUp (toL "a") (initState (toL "q")))) =
      onKeyUp (toL "ab") (onKeyUp (toL "a") (initState (toL "q"))))
    ∧ ((1, 1500) ∈ (onKeyUp (toL "ab") (onKeyUp (toL "a") (initState (toL "q")))).liveTimers)
    ∧ ((onDebounceFire 1 (onKeyUp (toL "ab") (onKeyUp (toL "a")
        (initState (toL "q"))))).requests =
        (initState (toL "q")).requests ++
          [{ query := toL "ab", dryRunOnly := true, pollMs := none }])
    ∧ ((onDebounceFire 7 (initState [])).requests = (initState []).requests) :=
  have h := debounce_coalesces_edits (initState (toL "q")) (toL "a") (toL "ab") (by decide)
  ⟨h.1, h.2.1, h.2.2.1, h.2.2.2 (initState []) 7 rfl⟩

end QTE
